import Mathlib

/-!
Shallow embedding of the `git_practice` repository:
  - `src/data_generation.py` : `generate_raw_car_equipment_data`
  - `src/data_diagnosis/diagnose_data.py` : source resolution, loading, and the
    diagnosis report.

Modelling conventions, used throughout:
  - A Python runtime value appearing in a table cell is `Value` (int, str or
    None); pandas NaN is identified with None (`Value.vnull`).
  - `random.Random(seed)` is abstracted as a stream `st : Nat -> Nat` of draws
    consumed one at a time, in the exact order the Python code draws them.
    `rng.choice(seq)` consumes one draw and picks `st k % seq.length`;
    `rng.random() < 0.NN` consumes one draw and tests `st k % 100 < NN`;
    `rng.randrange(a, b, step)` consumes one draw and yields
    `a + step * (st k % ((b - a) / step))`; `rng.shuffle` is the Fisher-Yates
    loop of CPython, one draw per iteration.  Every theorem about the generator
    is universally quantified over the stream, so no property below depends on
    the actual Mersenne-Twister values.
  - Core `String` operations of Python (strip, lower, split, replace, numeric
    parsing) are given executable char-list implementations.
-/

/-- A cell value of a table: Python int, str, or a missing value
(None / NaN).  Mirrors the value kinds the two source files put into rows. -/
inductive Value where
  | vint (n : Int)
  | vstr (s : String)
  | vnull
deriving DecidableEq, Inhabited

/-- Python `type(val).__name__` for the value kinds of `Value`. -/
def Value.typeName : Value → String
  | .vint _ => "int"
  | .vstr _ => "str"
  | .vnull => "NoneType"

/-- Python truth of `pd.isna` on a cell: only the missing value is na. -/
def Value.isna : Value → Bool
  | .vnull => true
  | _ => false

/-- Python `str(value)` for the cells the generator manipulates. -/
def valueStr : Value → String
  | .vint n => toString n
  | .vstr s => s
  | .vnull => "None"

/-- Modelled from pandas semantics: `pd.to_numeric(x, errors="coerce")`
succeeds on a string exactly when it is a decimal literal (optional sign,
digits, at most one decimal point).  `"N/A"` and `"$69,500"` fail, `"2016"`
succeeds.  An int succeeds, a missing value stays NaN (fails). -/
def isNumericString (s : String) : Bool :=
  let cs := match s.data with
    | '+' :: r => r
    | '-' :: r => r
    | r => r
  cs.any Char.isDigit && cs.all (fun c => c.isDigit || c = '.') &&
    (cs.filter (fun c => c = '.')).length ≤ 1

/-- Whether `pd.to_numeric(v, errors="coerce")` yields a number (not NaN). -/
def Value.coercesToNumeric : Value → Bool
  | .vint _ => true
  | .vnull => false
  | .vstr s => isNumericString s

/-- One generated record, with the exact fields of the row dict built by
`generate_raw_car_equipment_data` (source lines 32-43).  Fields that the
defect injections can turn into another runtime kind are `Value`. -/
structure Row where
  car_id : String
  make : String
  model : String
  model_year : Value
  trim_level : String
  exterior_color : Option String
  transmission : String
  fuel_type : String
  infotainment_system : Option String
  msrp : Value
deriving DecidableEq, Inhabited

/-- An in-memory table: ordered column names and rows of cell values,
modelling the `pd.DataFrame` the diagnoser works on. -/
structure DataFrame where
  cols : List String
  rows : List (List Value)
deriving DecidableEq, Inhabited

/-- Column order of the generated table (insertion order of the row dict). -/
def genCols : List String :=
  ["car_id", "make", "model", "model_year", "trim_level", "exterior_color",
   "transmission", "fuel_type", "infotainment_system", "msrp"]

/-- The cells of a generated record in column order, as `pd.DataFrame(data)`
lays them out. -/
def Row.toValues (r : Row) : List Value :=
  [Value.vstr r.car_id, Value.vstr r.make, Value.vstr r.model, r.model_year,
   Value.vstr r.trim_level,
   (match r.exterior_color with | some c => Value.vstr c | none => Value.vnull),
   Value.vstr r.transmission, Value.vstr r.fuel_type,
   (match r.infotainment_system with | some c => Value.vstr c | none => Value.vnull),
   r.msrp]

/-- `pd.DataFrame(data)` for a list of generated records. -/
def toDataFrame (l : List Row) : DataFrame :=
  ⟨genCols, l.map Row.toValues⟩

/-- Python f-string `f"{n:03}"`: decimal digits left-padded with zeros to
width 3. -/
def padNum (n : Nat) : String :=
  let s := Nat.repr n
  if s.length < 3 then String.mk (List.replicate (3 - s.length) '0') ++ s else s

/-- Helper for `f"{n:,}"`: starting from the reversed digit list, reinsert a
comma after every three digits. -/
def commasRev : List Char → List Char
  | a :: b :: c :: d :: rest => a :: b :: c :: ',' :: commasRev (d :: rest)
  | l => l

/-- Python f-string `f"{n:,}"` for a nonnegative int rendered by `valueStr`. -/
def commaFormat (s : String) : String :=
  String.mk (commasRev s.data.reverse).reverse

/-- Fixed catalog `models_by_make` (source lines 10-16); keys in insertion
order, as `list(models_by_make.keys())` enumerates them. -/
def makesList : List String := ["Toyota", "Honda", "Ford", "BMW", "Tesla"]

/-- Lookup in the `models_by_make` dict. -/
def modelsByMake : String → List String
  | "Toyota" => ["Corolla", "Camry", "RAV4", "Prius"]
  | "Honda" => ["Civic", "Accord", "CR-V", "Pilot"]
  | "Ford" => ["Focus", "Fusion", "Escape", "Explorer"]
  | "BMW" => ["320i", "X5", "X3", "M3"]
  | "Tesla" => ["Model S", "Model 3", "Model X", "Model Y"]
  | _ => []

/-- Fixed vocabulary `trims` of the generator. -/
def trims : List String := ["Base", "Sport", "Premium", "Limited"]

/-- Fixed vocabulary `colors` of the generator. -/
def colors : List String := ["Red", "Blue", "Black", "White", "Silver", "Gray"]

/-- Fixed vocabulary `transmissions` of the generator. -/
def transmissions : List String := ["automatic", "manual", "CVT", "dual clutch"]

/-- Fixed vocabulary `fuels` of the generator. -/
def fuels : List String := ["gasoline", "diesel", "hybrid", "electric"]

/-- Fixed vocabulary `infotainment` of the generator. -/
def infotainment : List String := ["Basic Audio", "Touchscreen", "Premium Audio", "Navigation"]

/-- `rng.choice` on a nonempty literal list: one draw, index `st k % length`. -/
def listChoice (st : Nat → Nat) (k : Nat) (l : List String) : String :=
  l.getD (st k % l.length) ""

/-- `rng.choice` on a possibly-empty sequence: `none` models the `IndexError`
CPython raises when the sequence is empty. -/
def choiceOpt {α : Type} (st : Nat → Nat) (k : Nat) (l : List α) : Option α × Nat :=
  (l.get? (st k % l.length), k + 1)

/-- The row dict as first built (source lines 28-43), before any defect
injection; draws consumed at offsets `k .. k+8` in source order. -/
def baseRowCore (st : Nat → Nat) (idx k : Nat) : Row :=
  let make := listChoice st k makesList
  { car_id := "C" ++ padNum (idx + 1)
    make := make
    model := listChoice st (k + 1) (modelsByMake make)
    model_year := Value.vint ((2013 + st (k + 3) % 11 : Nat) : Int)
    trim_level := listChoice st (k + 4) trims
    exterior_color := some (listChoice st (k + 5) colors)
    transmission := listChoice st (k + 6) transmissions
    fuel_type := listChoice st (k + 7) fuels
    infotainment_system := some (listChoice st (k + 8) infotainment)
    msrp := Value.vint ((22000 + 500 * (st (k + 2) % 96) : Nat) : Int) }

/-- Defect: `if rng.random() < 0.20: row["model"] = f" {row['model']}  "`. -/
def injectModel (st : Nat → Nat) (k : Nat) (r : Row) : Row × Nat :=
  if st k % 100 < 20 then ({ r with model := " " ++ r.model ++ "  " }, k + 1)
  else (r, k + 1)

/-- Defect: `if rng.random() < 0.18: row["exterior_color"] = None`. -/
def injectColor (st : Nat → Nat) (k : Nat) (r : Row) : Row × Nat :=
  if st k % 100 < 18 then ({ r with exterior_color := none }, k + 1)
  else (r, k + 1)

/-- Defect: `if rng.random() < 0.15: row["model_year"] = str(row["model_year"])`. -/
def injectYearText (st : Nat → Nat) (k : Nat) (r : Row) : Row × Nat :=
  if st k % 100 < 15 then
    ({ r with model_year := Value.vstr (valueStr r.model_year) }, k + 1)
  else (r, k + 1)

/-- Defect: `if rng.random() < 0.12: row["msrp"] = f"${msrp:,}"`.  At this
point `row["msrp"]` still holds the drawn int `msrp`. -/
def injectMsrpCurrency (st : Nat → Nat) (k : Nat) (r : Row) : Row × Nat :=
  if st k % 100 < 12 then
    ({ r with msrp := Value.vstr ("$" ++ commaFormat (valueStr r.msrp)) }, k + 1)
  else (r, k + 1)

/-- Defect: `if rng.random() < 0.10: row["msrp"] = "N/A"`. -/
def injectMsrpNA (st : Nat → Nat) (k : Nat) (r : Row) : Row × Nat :=
  if st k % 100 < 10 then ({ r with msrp := Value.vstr "N/A" }, k + 1)
  else (r, k + 1)

/-- Defect: misspelled trim, drawn from a confusion set that includes the
current (valid) trim. -/
def injectTrim (st : Nat → Nat) (k : Nat) (r : Row) : Row × Nat :=
  if st k % 100 < 14 then
    let opts := ["standart", "Premuim", "luxary", r.trim_level]
    ({ r with trim_level := opts.getD (st (k + 1) % opts.length) "" }, k + 2)
  else (r, k + 1)

/-- Defect: miscased or misspelled transmission. -/
def injectTransmission (st : Nat → Nat) (k : Nat) (r : Row) : Row × Nat :=
  if st k % 100 < 12 then
    let opts := ["Automtic", "manuall", "automatic ", "AUTOMATIC"]
    ({ r with transmission := opts.getD (st (k + 1) % opts.length) "" }, k + 2)
  else (r, k + 1)

/-- Defect: misspelled fuel, confusion set includes the current fuel. -/
def injectFuel (st : Nat → Nat) (k : Nat) (r : Row) : Row × Nat :=
  if st k % 100 < 10 then
    let opts := ["gasolen", "deisel", r.fuel_type]
    ({ r with fuel_type := opts.getD (st (k + 1) % opts.length) "" }, k + 2)
  else (r, k + 1)

/-- Defect: `if rng.random() < 0.08: row["infotainment_system"] = None`. -/
def injectInfo (st : Nat → Nat) (k : Nat) (r : Row) : Row × Nat :=
  if st k % 100 < 8 then ({ r with infotainment_system := none }, k + 1)
  else (r, k + 1)

/-- The nine defect-injection checks of source lines 46-67, in order. -/
def applyDefects (st : Nat → Nat) (k : Nat) (r : Row) : Row × Nat :=
  let s1 := injectModel st k r
  let s2 := injectColor st s1.2 s1.1
  let s3 := injectYearText st s2.2 s2.1
  let s4 := injectMsrpCurrency st s3.2 s3.1
  let s5 := injectMsrpNA st s4.2 s4.1
  let s6 := injectTrim st s5.2 s5.1
  let s7 := injectTransmission st s6.2 s6.1
  let s8 := injectFuel st s7.2 s7.1
  injectInfo st s8.2 s8.1

/-- One iteration of the base-record loop body (source lines 27-69): nine
draws for the row dict, then the defect injections. -/
def buildBaseRow (st : Nat → Nat) (idx k : Nat) : Row × Nat :=
  applyDefects st (k + 9) (baseRowCore st idx k)

/-- The base-record loop `for idx in range(base_rows)`, threading the draw
counter; `idx` is the current loop index. -/
def buildRows (st : Nat → Nat) : Nat → Nat → Nat → List Row × Nat
  | 0, _, k => ([], k)
  | n + 1, idx, k =>
    let rk := buildBaseRow st idx k
    let rest := buildRows st n (idx + 1) rk.2
    (rk.1 :: rest.1, rest.2)

/-- The duplicate loop (source lines 71-73): each iteration draws a uniform
existing record and appends a verbatim copy; `none` models the `IndexError`
of `rng.choice` on an empty list. -/
def addDuplicates (st : Nat → Nat) : Nat → List Row → Nat → Option (List Row) × Nat
  | 0, data, k => (some data, k)
  | n + 1, data, k =>
    match choiceOpt st k data with
    | (none, k') => (none, k')
    | (some r, k') => addDuplicates st n (data ++ [r]) k'

/-- Swap the entries at positions `i` and `j` (`x[i], x[j] = x[j], x[i]`). -/
def swapIdx {α : Type} [Inhabited α] (l : List α) (i j : Nat) : List α :=
  (l.set i (l.getD j default)).set j (l.getD i default)

/-- CPython `random.shuffle`: `for i in reversed(range(1, len(x)))`, one draw
per iteration, swapping `x[i]` with `x[j]`, `j = draw % (i + 1)`.  The first
argument of the recursion is the current `i`. -/
def shuffleFrom (st : Nat → Nat) : Nat → Nat → List Row → List Row
  | 0, _, l => l
  | m + 1, k, l => shuffleFrom st m (k + 1) (swapIdx l (m + 1) (st k % (m + 2)))

/-- `rng.shuffle(data)` on the assembled record list. -/
def pyShuffle (st : Nat → Nat) (k : Nat) (l : List Row) : List Row :=
  shuffleFrom st (l.length - 1) k l

/-- `duplicate_rows_needed = max(2, rows // 6)` (source line 23). -/
def duplicate_rows_needed (rows : Nat) : Nat := max 2 (rows / 6)

/-- `generate_raw_car_equipment_data`, parametric in the draw stream: build
`rows - duplicate_rows_needed` base records, append the duplicates, shuffle.
`none` models the uncaught `IndexError` when the duplicate step draws from an
empty record list. -/
def generateWith (rows : Nat) (st : Nat → Nat) : Option (List Row) :=
  let dup := duplicate_rows_needed rows
  let bk := buildRows st (rows - dup) 0 0
  match addDuplicates st dup bk.1 bk.2 with
  | (none, _) => none
  | (some data, k) => some (pyShuffle st k data)

/-- Modelled from the spec: `random.Random(seed)` is a deterministic
pseudo-random generator, so the draw stream is a fixed function of the seed.
The concrete mixing function below stands in for the external Mersenne
Twister; no theorem depends on its values. -/
def seedStream (seed : Nat) : Nat → Nat :=
  fun k => (seed * 6364136223846793005 + k * 1442695040888963407) % 2 ^ 64

/-- `generate_raw_car_equipment_data(rows, seed)` (source lines 6-76). -/
def generate_raw_car_equipment_data (rows : Nat) (seed : Nat) : Option (List Row) :=
  generateWith rows (seedStream seed)

/-! ## Diagnoser: string order and report helpers -/

/-- Code-point lexicographic strict order on char lists, as Python compares
strings. -/
def charListLt : List Char → List Char → Bool
  | [], [] => false
  | [], _ :: _ => true
  | _ :: _, [] => false
  | a :: as, b :: bs =>
    if a.toNat < b.toNat then true
    else if b.toNat < a.toNat then false
    else charListLt as bs

/-- String order used by Python `sorted`: `a <= b`. -/
def strLe (a b : String) : Bool := !charListLt b.data a.data

/-- Insert into a sorted list, keeping it sorted by `strLe`. -/
def insertSorted (a : String) : List String → List String
  | [] => [a]
  | b :: t => if strLe a b then a :: b :: t else b :: insertSorted a t

/-- `sorted(...)` on a list of strings. -/
def sortStrings (l : List String) : List String := l.foldr insertSorted []

/-- Python `sorted(someSet)`: unique elements in ascending order. -/
def sortedUnique (l : List String) : List String := sortStrings l.dedup

/-- Python `value.strip()` restricted to whitespace stripping. -/
def trimChars (s : String) : String :=
  String.mk (((s.data.dropWhile Char.isWhitespace).reverse.dropWhile
    Char.isWhitespace).reverse)

/-! ## Diagnoser: the checks of `diagnose_generated_data` -/

/-- The column at position `i` of the table, as `df[column]` enumerates it. -/
def DataFrame.col (df : DataFrame) (i : Nat) : List Value :=
  df.rows.map (fun r => r.getD i Value.vnull)

/-- `df.duplicated().sum()`: rows equal (in every field) to an earlier row. -/
def duplicatedCountAux (seen : List (List Value)) : List (List Value) → Nat
  | [] => 0
  | r :: rest => (if r ∈ seen then 1 else 0) + duplicatedCountAux (r :: seen) rest

/-- `int(df.duplicated().sum())` (source line 91). -/
def duplicatedCount (rows : List (List Value)) : Nat := duplicatedCountAux [] rows

/-- `int(df.isna().sum()[col])`: missing values in one column. -/
def nullCount (vs : List Value) : Nat := (vs.filter Value.isna).length

/-- The `f"{col} ({count})"` entries for columns with a positive null count,
in column order (source lines 94-97). -/
def nullColumns (df : DataFrame) : List String :=
  df.cols.enum.filterMap (fun ic =>
    if 0 < nullCount (df.col ic.1) then
      some (ic.2 ++ (" (" ++ toString (nullCount (df.col ic.1))) ++ ")")
    else none)

/-- Python `", ".join(parts)`. -/
def joinComma : List String → String
  | [] => ""
  | [a] => a
  | a :: b :: t => a ++ (", " ++ joinComma (b :: t))

/-- The single line the null check appends (source lines 98-101). -/
def nullLine (df : DataFrame) : String :=
  if nullColumns df = [] then "- Columns containing null values: none"
  else "- Columns containing null values: " ++ joinComma (nullColumns df)

/-- The distinct runtime type names among the non-null values of one column,
sorted, modelling `sorted({type(val).__name__ for val in df[col].dropna()})`. -/
def distinctTypeNames (vs : List Value) : List String :=
  sortedUnique ((vs.filter (fun v => !v.isna)).map Value.typeName)

/-- The mixed-type lines (source lines 103-108), one per column whose
non-null values span more than one runtime type. -/
def mixedTypeLines (df : DataFrame) : List String :=
  df.cols.enum.filterMap (fun ic =>
    if 1 < (distinctTypeNames (df.col ic.1)).length then
      some ("- Mixed data types in \x27" ++
        (ic.2 ++ ("\x27: " ++ joinComma (distinctTypeNames (df.col ic.1)))))
    else none)

/-- Number of string values of a column that differ from their stripped form
(source lines 110-119).  A column enters the check when pandas stores it with
object dtype; modelled as: it holds at least one string. -/
def whitespaceMismatch (vs : List Value) : Nat :=
  ((vs.filterMap (fun v => match v with | .vstr s => some s | _ => none)).filter
    (fun s => s ≠ trimChars s)).length

/-- The leading/trailing-space lines (source lines 110-122), in column order. -/
def stringIssueLines (df : DataFrame) : List String :=
  df.cols.enum.filterMap (fun ic =>
    if (df.col ic.1).any (fun v => match v with | .vstr _ => true | _ => false) then
      if whitespaceMismatch (df.col ic.1) ≠ 0 then
        some (("- " ++ (toString (whitespaceMismatch (df.col ic.1)) ++
          (" values in \x27" ++ (ic.2 ++ "\x27")))) ++ " have leading/trailing spaces")
      else none
    else none)

/-- `EXPECTED_VALUES` (source lines 13-17), in dict insertion order. -/
def EXPECTED_VALUES : List (String × List String) :=
  [("trim_level", ["Base", "Sport", "Premium", "Limited"]),
   ("transmission", ["automatic", "manual", "CVT", "dual clutch"]),
   ("fuel_type", ["gasoline", "diesel", "hybrid", "electric"])]

/-- The offender collection of the categorical check (source lines 127-133):
non-null values of the column that are not strings contribute their type
name, strings outside the vocabulary contribute themselves. -/
def collectUnexpected (vs : List Value) (expected : List String) : List String :=
  vs.filterMap (fun v => match v with
    | .vnull => none
    | .vint n => some (Value.vint n).typeName
    | .vstr s => if s ∈ expected then none else some s)

/-- `sorted(unexpected_values)` for one categorical column. -/
def offendersFor (df : DataFrame) (c : String) (expected : List String) : List String :=
  sortedUnique (collectUnexpected (df.col (df.cols.indexOf c)) expected)

/-- The unexpected-value lines (source lines 124-137), one per categorical
column of `EXPECTED_VALUES` present in the table with a nonempty offender
set. -/
def categoricalLines (df : DataFrame) : List String :=
  EXPECTED_VALUES.filterMap (fun ce =>
    if ce.1 ∈ df.cols then
      if offendersFor df ce.1 ce.2 = [] then none
      else some ("- Unexpected values in \x27" ++
        (ce.1 ++ ("\x27: " ++ joinComma (offendersFor df ce.1 ce.2))))
    else none)

/-- `int(pd.to_numeric(df["msrp"], errors="coerce").isna().sum())`. -/
def msrpFailCount (df : DataFrame) : Nat :=
  ((df.col (df.cols.indexOf "msrp")).filter (fun v => !v.coercesToNumeric)).length

/-- The msrp coercion check (source lines 139-145): the count line is
appended only when the count is nonzero. -/
def msrpLines (df : DataFrame) : List String :=
  if "msrp" ∈ df.cols then
    if msrpFailCount df ≠ 0 then
      ["- \x27msrp\x27 contains " ++ (toString (msrpFailCount df) ++ " non-numeric values")]
    else []
  else []

/-- `int(pd.to_numeric(df["model_year"], errors="coerce").isna().sum())`. -/
def modelYearFailCount (df : DataFrame) : Nat :=
  ((df.col (df.cols.indexOf "model_year")).filter (fun v => !v.coercesToNumeric)).length

/-- The model-year coercion check (source lines 147-150): a fixed line,
appended only when some value fails to coerce. -/
def modelYearLines (df : DataFrame) : List String :=
  if "model_year" ∈ df.cols then
    if modelYearFailCount df ≠ 0 then
      ["- \x27model_year\x27 includes non-numeric entries"]
    else []
  else []

/-- All report lines of `diagnose_generated_data` (source lines 85-150), in
emission order.  Printing and writing the report file are I/O side effects
outside the embedding; the report is the returned line list. -/
def diagnoseLines (df : DataFrame) : List String :=
  ["Data diagnosis report",
   "- Rows: " ++ toString df.rows.length,
   "- Columns: " ++ toString df.cols.length,
   "- Duplicate rows detected: " ++ toString (duplicatedCount df.rows),
   nullLine df]
  ++ mixedTypeLines df ++ stringIssueLines df ++ categoricalLines df
  ++ msrpLines df ++ modelYearLines df

/-! ## Loader: source resolution and loading (`_resolve_candidate_path`,
`_load_dataframe`, `diagnose_generated_data`) -/

/-- A POSIX path, as `pathlib.Path` treats the strings this script builds:
an absolute flag plus the nonempty path segments. -/
structure PyPath where
  abs : Bool
  segs : List String
deriving DecidableEq, Inhabited

/-- `pathlib` `/` join: joining an absolute path replaces the left side. -/
def PyPath.join (p q : PyPath) : PyPath :=
  if q.abs then q else ⟨p.abs, p.segs ++ q.segs⟩

/-- `Path.parent`: drop the last segment. -/
def PyPath.parent (p : PyPath) : PyPath := ⟨p.abs, p.segs.dropLast⟩

/-- `Path.name`: the last segment. -/
def PyPath.name (p : PyPath) : String := p.segs.getLastD ""

/-- Split a char list at a separator char. -/
def splitChar (sep : Char) : List Char → List (List Char)
  | [] => [[]]
  | c :: rest =>
    let r := splitChar sep rest
    if c = sep then [] :: r
    else match r with
      | [] => [[c]]
      | h :: t => (c :: h) :: t

/-- `Path(source)` for the strings this script passes: absolute when the
string starts with the separator; segments are the nonempty parts. -/
def pathOfString (s : String) : PyPath :=
  ⟨(match s.data with | '/' :: _ => true | _ => false),
   ((splitChar '/' s.data).map String.mk).filter (fun seg => seg ≠ "")⟩

/-- `Path.suffix`: the final extension of the last segment, with the dot;
empty when the name has no dot. -/
def extSuffix (p : PyPath) : String :=
  let parts := splitChar '.' p.name.data
  if parts.length ≤ 1 then "" else "." ++ String.mk (parts.getLastD [])

/-- ASCII `str.lower`, enough for the extension comparison of the source. -/
def lowerChar (c : Char) : Char :=
  if 65 ≤ c.toNat ∧ c.toNat ≤ 90 then Char.ofNat (c.toNat + 32) else c

/-- `s.lower()` on extensions. -/
def lowerAscii (s : String) : String := String.mk (s.data.map lowerChar)

/-- `_module_name` (source lines 20-25): drop a trailing `.py`, replace the
path separator by a dot.  `os.sep` is `/` on the POSIX host modelled here. -/
def module_name (module_path : String) : String :=
  let m := match module_path.data.reverse with
    | 'y' :: 'p' :: '.' :: rest => rest.reverse
    | _ => module_path.data
  String.mk (m.map (fun c => if c = '/' then '.' else c))

/-- What loading a Python module can expose: whether the attribute
`generate_raw_car_equipment_data` is present, and the table the zero-argument
call returns when it is. -/
structure PyModule where
  hasGenerator : Bool
  generated : DataFrame
deriving DecidableEq, Inhabited

/-- The host environment the loader interacts with: the directory holding
the diagnoser script, which files exist, what a CSV file parses to, what a
Python file loads to, and which dotted module names import.  External-library
steps (`pd.read_csv`, `spec_from_file_location`, `exec_module`) are modelled
as total on this environment; their own failure modes (malformed CSV, an
unreadable module) are outside the embedding. -/
structure Env where
  scriptDir : PyPath
  fileExists : PyPath → Bool
  csvTable : PyPath → DataFrame
  pyModule : PyPath → PyModule
  importable : String → Option PyModule

/-- `_resolve_candidate_path` (source lines 28-47): candidate list, first
existing wins.  `.resolve()` (canonicalization) is modelled as the identity. -/
def resolve_candidate_path (env : Env) (source : String) : Option PyPath :=
  let input := pathOfString source
  let candidates :=
    if input.abs then [input]
    else [input, env.scriptDir.join input, env.scriptDir.parent.join input]
  candidates.find? env.fileExists

/-- The fatal errors `_load_dataframe` raises. -/
inductive LoadError where
  | importError (msg : String)
  | valueError (msg : String)
  | attributeError (msg : String)
deriving DecidableEq

/-- `_load_dataframe` (source lines 50-79): resolve; on a `.csv` match read
the file; on a `.py` match load the module; any other matched extension is a
`ValueError`; with no match import `module_name source`, failing with an
`ImportError` when the import mechanism does not know the name.  A loaded
or imported module without the `generate_raw_car_equipment_data` attribute is an
`AttributeError`; otherwise its zero-argument call provides the table. -/
def load_dataframe (env : Env) (source : String) : Except LoadError DataFrame :=
  match resolve_candidate_path env source with
  | some p =>
    if lowerAscii (extSuffix p) = ".csv" then .ok (env.csvTable p)
    else if lowerAscii (extSuffix p) = ".py" then
      if (env.pyModule p).hasGenerator then .ok (env.pyModule p).generated
      else .error (.attributeError
        "Provided module does not expose generate_raw_car_equipment_data()")
    else .error (.valueError
      ("Unsupported file type \x27" ++ extSuffix p ++ "\x27 for data source"))
  | none =>
    match env.importable (module_name source) with
    | none => .error (.importError ("No module named " ++ module_name source))
    | some m =>
      if m.hasGenerator then .ok m.generated
      else .error (.attributeError
        "Provided module does not expose generate_raw_car_equipment_data()")

/-- `diagnose_generated_data` (source lines 82-165): load, then build the
report.  Printing and persisting the report are I/O effects outside the
embedding; an uncaught load error aborts before any report line exists. -/
def diagnose_generated_data (env : Env) (source : String) :
    Except LoadError (List String) :=
  (load_dataframe env source).map diagnoseLines

/-! ## Helper lemmas: counts, swaps, shuffling -/

lemma count_set_getD {α : Type} [DecidableEq α] (b a d : α) :
    ∀ (l : List α) (i : Nat), i < l.length →
      (l.set i b).count a + (if l.getD i d = a then 1 else 0)
        = l.count a + (if b = a then 1 else 0)
  | [], i, h => by simp at h
  | c :: t, 0, _ => by
      simp only [List.set_cons_zero, List.count_cons, List.getD_cons_zero, beq_iff_eq]
      split_ifs <;> omega
  | c :: t, i + 1, h => by
      have ih := count_set_getD b a d t i (by simpa using h)
      simp only [List.set_cons_succ, List.count_cons, List.getD_cons_succ, beq_iff_eq]
      split_ifs at ih ⊢ <;> omega

lemma getD_set_self {α : Type} (x d : α) :
    ∀ (l : List α) (i : Nat), i < l.length → (l.set i x).getD i d = x
  | [], i, h => by simp at h
  | _ :: _, 0, _ => rfl
  | c :: t, i + 1, h => by
      simpa using getD_set_self x d t i (by simpa using h)

lemma getD_set_ne {α : Type} (x d : α) :
    ∀ (l : List α) (i j : Nat), i ≠ j → (l.set i x).getD j d = l.getD j d
  | [], _, _, _ => by simp
  | c :: t, 0, 0, h => absurd rfl h
  | c :: t, 0, j + 1, _ => by simp
  | c :: t, i + 1, 0, _ => by simp
  | c :: t, i + 1, j + 1, h => by
      simpa using getD_set_ne x d t i j (fun he => h (by omega))

lemma swapIdx_count {α : Type} [Inhabited α] [DecidableEq α] (l : List α) (i j : Nat)
    (hi : i < l.length) (hj : j < l.length) (a : α) :
    (swapIdx l i j).count a = l.count a := by
  have hx : (l.set i (l.getD j default)).getD j default = l.getD j default := by
    by_cases hij : i = j
    · subst hij; exact getD_set_self _ _ l i hi
    · exact getD_set_ne _ _ l i j hij
  have h1 := count_set_getD (l.getD j default) a default l i hi
  have h2 := count_set_getD (l.getD i default) a default (l.set i (l.getD j default)) j
    (by simpa using hj)
  rw [hx] at h2
  unfold swapIdx
  split_ifs at h1 h2 <;> omega

lemma swapIdx_length {α : Type} [Inhabited α] (l : List α) (i j : Nat) :
    (swapIdx l i j).length = l.length := by
  simp [swapIdx]

lemma shuffleFrom_length (st : Nat → Nat) : ∀ (m k : Nat) (l : List Row),
    (shuffleFrom st m k l).length = l.length
  | 0, _, _ => rfl
  | m + 1, k, l => by
      rw [shuffleFrom, shuffleFrom_length st m (k + 1)]
      exact swapIdx_length l (m + 1) (st k % (m + 2))

lemma shuffleFrom_perm (st : Nat → Nat) : ∀ (m k : Nat) (l : List Row),
    m < l.length → List.Perm (shuffleFrom st m k l) l
  | 0, _, l, _ => List.Perm.refl l
  | m + 1, k, l, h => by
      have hj : st k % (m + 2) < l.length :=
        lt_of_lt_of_le (Nat.mod_lt _ (by omega)) (by omega)
      have hswap : List.Perm (swapIdx l (m + 1) (st k % (m + 2))) l :=
        List.perm_iff_count.mpr (fun a => swapIdx_count l (m + 1) _ h hj a)
      have hrec := shuffleFrom_perm st m (k + 1) (swapIdx l (m + 1) (st k % (m + 2)))
        (by rw [swapIdx_length]; omega)
      rw [shuffleFrom]
      exact hrec.trans hswap

lemma pyShuffle_perm (st : Nat → Nat) (k : Nat) (l : List Row) :
    List.Perm (pyShuffle st k l) l := by
  cases l with
  | nil => exact List.Perm.refl _
  | cons a t =>
    exact shuffleFrom_perm st _ k (a :: t) (by simp)

/-! ## Helper lemmas: the duplicate loop and the base loop -/

lemma choiceOpt_of_ne_nil {α : Type} (st : Nat → Nat) (k : Nat) (l : List α)
    (h : l ≠ []) : ∃ r, choiceOpt st k l = (some r, k + 1) ∧ r ∈ l := by
  have hlen : 0 < l.length := List.length_pos.mpr h
  have hlt : st k % l.length < l.length := Nat.mod_lt _ hlen
  exact ⟨l.get ⟨_, hlt⟩, by simp [choiceOpt, List.get?_eq_get hlt], List.get_mem _ _ _⟩

lemma addDuplicates_ok (st : Nat → Nat) : ∀ (n : Nat) (data : List Row) (k : Nat),
    data ≠ [] → ∃ l' k', addDuplicates st n data k = (some l', k')
      ∧ l'.length = data.length + n
      ∧ (∀ x, x ∈ l' → x ∈ data)
      ∧ (∀ x, data.count x ≤ l'.count x)
  | 0, data, k, _ => ⟨data, k, rfl, by omega, fun _ hx => hx, fun _ => le_refl _⟩
  | n + 1, data, k, hne => by
      obtain ⟨r, hchoice, hr⟩ := choiceOpt_of_ne_nil st k data hne
      obtain ⟨l', k', heq, hlen, hmem, hcount⟩ :=
        addDuplicates_ok st n (data ++ [r]) (k + 1) (by simp)
      refine ⟨l', k', ?_, ?_, ?_, ?_⟩
      · rw [addDuplicates, hchoice]; exact heq
      · rw [List.length_append] at hlen; simp at hlen; omega
      · intro x hx
        rcases (List.mem_append.mp (hmem x hx)) with h | h
        · exact h
        · simpa using (List.mem_singleton.mp h) ▸ hr
      · intro x
        calc data.count x ≤ (data ++ [r]).count x := by
              rw [List.count_append]; omega
          _ ≤ l'.count x := hcount x

lemma addDuplicates_dup (st : Nat → Nat) (n : Nat) (data : List Row) (k : Nat)
    (hne : data ≠ []) :
    ∃ l' k', addDuplicates st (n + 1) data k = (some l', k') ∧ ∃ x, 2 ≤ l'.count x := by
  obtain ⟨r, hchoice, hr⟩ := choiceOpt_of_ne_nil st k data hne
  obtain ⟨l', k', heq, _, _, hcount⟩ := addDuplicates_ok st n (data ++ [r]) (k + 1) (by simp)
  refine ⟨l', k', by rw [addDuplicates, hchoice]; exact heq, r, ?_⟩
  have h1 : 1 ≤ data.count r := List.count_pos_iff.mpr hr
  have h2 : (data ++ [r]).count r = data.count r + 1 := by
    rw [List.count_append]; simp
  have := hcount r
  omega

lemma addDuplicates_nil (st : Nat → Nat) (n : Nat) (k : Nat) :
    addDuplicates st (n + 1) [] k = (none, k + 1) := by
  simp [addDuplicates, choiceOpt]

lemma buildRows_length (st : Nat → Nat) : ∀ (n idx k : Nat),
    (buildRows st n idx k).1.length = n
  | 0, _, _ => rfl
  | n + 1, idx, k => by
      simp [buildRows, buildRows_length st n (idx + 1)]

lemma duplicate_rows_needed_succ (rows : Nat) :
    duplicate_rows_needed rows = (duplicate_rows_needed rows - 1) + 1 := by
  unfold duplicate_rows_needed; omega

/-! ## Helper lemmas: the generated model year always coerces -/

lemma isNumericString_year (m : Nat) (h : m < 11) :
    isNumericString (toString ((2013 + m : Nat) : Int)) = true := by
  interval_cases m <;> decide

lemma injectModel_my (st : Nat → Nat) (k : Nat) (r : Row) :
    ((injectModel st k r).1).model_year = r.model_year := by
  unfold injectModel; split <;> rfl

lemma injectColor_my (st : Nat → Nat) (k : Nat) (r : Row) :
    ((injectColor st k r).1).model_year = r.model_year := by
  unfold injectColor; split <;> rfl

lemma injectMsrpCurrency_my (st : Nat → Nat) (k : Nat) (r : Row) :
    ((injectMsrpCurrency st k r).1).model_year = r.model_year := by
  unfold injectMsrpCurrency; split <;> rfl

lemma injectMsrpNA_my (st : Nat → Nat) (k : Nat) (r : Row) :
    ((injectMsrpNA st k r).1).model_year = r.model_year := by
  unfold injectMsrpNA; split <;> rfl

lemma injectTrim_my (st : Nat → Nat) (k : Nat) (r : Row) :
    ((injectTrim st k r).1).model_year = r.model_year := by
  unfold injectTrim; split <;> rfl

lemma injectTransmission_my (st : Nat → Nat) (k : Nat) (r : Row) :
    ((injectTransmission st k r).1).model_year = r.model_year := by
  unfold injectTransmission; split <;> rfl

lemma injectFuel_my (st : Nat → Nat) (k : Nat) (r : Row) :
    ((injectFuel st k r).1).model_year = r.model_year := by
  unfold injectFuel; split <;> rfl

lemma injectInfo_my (st : Nat → Nat) (k : Nat) (r : Row) :
    ((injectInfo st k r).1).model_year = r.model_year := by
  unfold injectInfo; split <;> rfl

lemma injectYearText_coerces (st : Nat → Nat) (k : Nat) (r : Row)
    (h1 : r.model_year.coercesToNumeric = true)
    (h2 : isNumericString (valueStr r.model_year) = true) :
    ((injectYearText st k r).1).model_year.coercesToNumeric = true := by
  unfold injectYearText; split
  · simpa [Value.coercesToNumeric] using h2
  · exact h1

lemma applyDefects_year (st : Nat → Nat) (k : Nat) (r : Row)
    (h1 : r.model_year.coercesToNumeric = true)
    (h2 : isNumericString (valueStr r.model_year) = true) :
    ((applyDefects st k r).1).model_year.coercesToNumeric = true := by
  simp only [applyDefects]
  rw [injectInfo_my, injectFuel_my, injectTransmission_my, injectTrim_my,
    injectMsrpNA_my, injectMsrpCurrency_my]
  apply injectYearText_coerces
  · rw [injectColor_my, injectModel_my]; exact h1
  · rw [injectColor_my, injectModel_my]; exact h2

lemma buildBaseRow_year (st : Nat → Nat) (idx k : Nat) :
    ((buildBaseRow st idx k).1).model_year.coercesToNumeric = true := by
  unfold buildBaseRow
  apply applyDefects_year
  · rfl
  · exact isNumericString_year _ (Nat.mod_lt _ (by omega))

lemma buildRows_year (st : Nat → Nat) : ∀ (n idx k : Nat) (r : Row),
    r ∈ (buildRows st n idx k).1 → r.model_year.coercesToNumeric = true
  | 0, _, _, r, hr => by simp [buildRows] at hr
  | n + 1, idx, k, r, hr => by
      rcases List.mem_cons.mp hr with h | h
      · exact h ▸ buildBaseRow_year st idx k
      · exact buildRows_year st n (idx + 1) _ r h

/-! ## Generator-level lemmas -/

lemma generateWith_spec (rows : Nat) (st : Nat → Nat) (l : List Row)
    (h : generateWith rows st = some l) :
    l.length = (rows - duplicate_rows_needed rows) + duplicate_rows_needed rows
    ∧ (∃ x, 2 ≤ l.count x)
    ∧ (∀ r, r ∈ l → r.model_year.coercesToNumeric = true) := by
  simp only [generateWith] at h
  rcases hdata : buildRows st (rows - duplicate_rows_needed rows) 0 0 with ⟨data, k0⟩
  rw [hdata] at h
  by_cases hnil : data = []
  · subst hnil
    rw [duplicate_rows_needed_succ rows, addDuplicates_nil] at h
    simp at h
  · obtain ⟨l₁, k₁, heq1, hlen1, hmem1, -⟩ :=
      addDuplicates_ok st (duplicate_rows_needed rows) data k0 hnil
    have hdup := addDuplicates_dup st (duplicate_rows_needed rows - 1) data k0 hnil
    rw [← duplicate_rows_needed_succ rows] at hdup
    obtain ⟨l₂, k₂, heq2, x, hx⟩ := hdup
    rw [heq1] at heq2 h
    obtain ⟨he1, -⟩ := Prod.mk.injEq .. ▸ heq2
    obtain he1 := Option.some.inj he1
    subst he1
    have hl : l = pyShuffle st k₁ l₁ := (Option.some.inj h).symm
    have hperm : List.Perm l l₁ := hl ▸ pyShuffle_perm st k₁ l₁
    have hdlen : data.length = rows - duplicate_rows_needed rows := by
      have := buildRows_length st (rows - duplicate_rows_needed rows) 0 0
      rw [hdata] at this; exact this
    refine ⟨by rw [hperm.length_eq, hlen1, hdlen], ⟨x, ?_⟩, ?_⟩
    · rw [hperm.count_eq]; exact hx
    · intro r hr
      have hrd : r ∈ data := hmem1 r (hperm.mem_iff.mp hr)
      have := buildRows_year st (rows - duplicate_rows_needed rows) 0 0 r
      rw [hdata] at this
      exact this hrd

lemma generateWith_total (rows : Nat) (st : Nat → Nat) (h3 : 3 ≤ rows) :
    ∃ l, generateWith rows st = some l ∧ l.length = rows := by
  have hbase : 1 ≤ rows - duplicate_rows_needed rows := by
    unfold duplicate_rows_needed; omega
  have hdup_le : duplicate_rows_needed rows ≤ rows := by
    unfold duplicate_rows_needed; omega
  rcases hdata : buildRows st (rows - duplicate_rows_needed rows) 0 0 with ⟨data, k0⟩
  have hdlen : data.length = rows - duplicate_rows_needed rows := by
    have := buildRows_length st (rows - duplicate_rows_needed rows) 0 0
    rw [hdata] at this; exact this
  have hnil : data ≠ [] := by
    intro he; rw [he] at hdlen; simp at hdlen; omega
  obtain ⟨l', k', heq, hlen, -, -⟩ :=
    addDuplicates_ok st (duplicate_rows_needed rows) data k0 hnil
  refine ⟨pyShuffle st k' l', ?_, ?_⟩
  · simp only [generateWith]
    rw [hdata, heq]
  · rw [(pyShuffle_perm st k' l').length_eq, hlen, hdlen]; omega

/-! ## Claims about the generator -/

/-- C1 (amended): `car_id` is NOT unique per batch.  The duplicate step
copies whole records, `car_id` included, so every table the generator
actually returns contains two distinct rows with the same `car_id`. -/
theorem C1_car_ids_never_unique (rows : Nat) (st : Nat → Nat) (l : List Row)
    (h : generateWith rows st = some l) : ¬ (l.map Row.car_id).Nodup := by
  obtain ⟨-, ⟨x, hx⟩, -⟩ := generateWith_spec rows st l h
  intro hnd
  have hle := (List.nodup_iff_count_le_one.mp hnd) x.car_id
  have hmap : l.count x ≤ (l.map Row.car_id).count x.car_id :=
    List.count_le_count_map l Row.car_id x
  omega

/-- C1 counterexample to the claim as stated: at `rows = 12` with the
all-zeros draw stream the generator returns a table whose `car_id` column is
not duplicate-free. -/
theorem C1_counterexample :
    ((generateWith 12 (fun _ => 0)).map (fun l => decide ((l.map Row.car_id).Nodup)))
      = some false := by decide

/-- C1 witness: the amended claim at a concrete input. -/
theorem C1_witness :
    ¬ ((((generateWith 12 (fun _ => 0)).getD []).map Row.car_id).Nodup) :=
  C1_car_ids_never_unique 12 (fun _ => 0) _ (by decide)

/-- Rows of a table that are identical, in every field, to another row of
the same table. -/
def fullyDuplicatedRows (l : List Row) : List Row :=
  l.filter (fun r => decide (2 ≤ l.count r))

/-- C2: the generator uses `duplicate_rows_needed = max(2, rows // 6)`
verbatim full-row copies, so for `rows ≥ 12` the generated table contains at
least 2 rows that are identical in every field to another row. -/
theorem C2_at_least_two_full_duplicates (rows : Nat) (st : Nat → Nat)
    (hrows : 12 ≤ rows) :
    duplicate_rows_needed rows = max 2 (rows / 6)
    ∧ ∃ l, generateWith rows st = some l ∧ 2 ≤ (fullyDuplicatedRows l).length := by
  refine ⟨rfl, ?_⟩
  obtain ⟨l, hl, -⟩ := generateWith_total rows st (by omega)
  obtain ⟨-, ⟨x, hx⟩, -⟩ := generateWith_spec rows st l hl
  refine ⟨l, hl, ?_⟩
  have hp : (fun r => decide (2 ≤ l.count r)) x = true := by simpa using hx
  have h1 : (fullyDuplicatedRows l).count x = l.count x := List.count_filter hp
  have h2 : (fullyDuplicatedRows l).count x ≤ (fullyDuplicatedRows l).length :=
    List.count_le_length x _
  omega

/-- C2 witness: at `rows = 12` with the all-zeros stream the returned table
has at least two fully duplicated rows. -/
theorem C2_witness :
    2 ≤ (fullyDuplicatedRows ((generateWith 12 (fun _ => 0)).getD [])).length := by
  obtain ⟨l, hl, h2⟩ := (C2_at_least_two_full_duplicates 12 (fun _ => 0) (by omega)).2
  rw [hl]
  simpa using h2

/-- C4: the generator is deterministic in `(rows, seed)`: its only source of
randomness is the stream of the seeded generator, so two invocations with
equal arguments return the same table. -/
theorem C4_deterministic_under_seed (rows seed : Nat) (t₁ t₂ : Option (List Row))
    (h₁ : generate_raw_car_equipment_data rows seed = t₁)
    (h₂ : generate_raw_car_equipment_data rows seed = t₂) : t₁ = t₂ := by
  rw [← h₁, ← h₂]

/-- C4 witness at the default arguments of the source. -/
theorem C4_witness :
    generate_raw_car_equipment_data 30 7 = generate_raw_car_equipment_data 30 7 :=
  C4_deterministic_under_seed 30 7 _ _ rfl rfl

/-- C9: for `rows ≥ 3` the generator returns a table of exactly `rows` rows;
for `rows ≤ 2` the base-record count `rows - max(2, rows // 6)` is zero, no
base record is built, and the duplicate step draws from an empty list and
fails (the `IndexError`, modelled as `none`). -/
theorem C9_total_only_for_three_plus (rows : Nat) (st : Nat → Nat) :
    (3 ≤ rows → ∃ l, generateWith rows st = some l ∧ l.length = rows)
    ∧ (rows ≤ 2 → generateWith rows st = none) := by
  constructor
  · exact generateWith_total rows st
  · intro h2
    have hd : duplicate_rows_needed rows = 2 := by unfold duplicate_rows_needed; omega
    have hb : rows - 2 = 0 := by omega
    simp only [generateWith, hd, hb]
    simp [buildRows, addDuplicates, choiceOpt]

/-- C9 witness: success with exactly 3 rows at `rows = 3`, failure at
`rows = 2`. -/
theorem C9_witness :
    ((generateWith 3 (fun _ => 0)).getD []).length = 3
    ∧ generateWith 2 (fun _ => 0) = none := by
  constructor
  · obtain ⟨l, hl, hlen⟩ := (C9_total_only_for_three_plus 3 (fun _ => 0)).1 (by omega)
    rw [hl]; simpa using hlen
  · exact (C9_total_only_for_three_plus 2 (fun _ => 0)).2 (by omega)

/-! ## Helper lemmas: string order and sorting -/

lemma charListLt_asymm : ∀ (a b : List Char),
    charListLt a b = true → charListLt b a = false
  | [], [] => by simp [charListLt]
  | [], _ :: _ => by simp [charListLt]
  | _ :: _, [] => by simp [charListLt]
  | a :: as, b :: bs => by
      intro h
      simp only [charListLt] at h ⊢
      by_cases h1 : a.toNat < b.toNat
      · rw [if_neg (by omega : ¬ b.toNat < a.toNat), if_pos h1]
      · by_cases h2 : b.toNat < a.toNat
        · rw [if_neg h1, if_pos h2] at h
          simp at h
        · rw [if_neg h1, if_neg h2] at h
          rw [if_neg h2, if_neg h1]
          exact charListLt_asymm as bs h

lemma charListLt_trans_total : ∀ (x y z : List Char),
    charListLt x z = true → charListLt x y = true ∨ charListLt y z = true
  | [], y, [] => by simp [charListLt]
  | [], [], _ :: _ => by simp [charListLt]
  | [], _ :: _, _ :: _ => by simp [charListLt]
  | _ :: _, _, [] => by simp [charListLt]
  | a :: as, [], c :: cs => by simp [charListLt]
  | a :: as, b :: bs, c :: cs => by
      intro h
      simp only [charListLt] at h ⊢
      by_cases hac : a.toNat < c.toNat
      · by_cases hab : a.toNat < b.toNat
        · left; rw [if_pos hab]
        · right
          rw [if_pos (by omega : b.toNat < c.toNat)]
      · by_cases hca : c.toNat < a.toNat
        · rw [if_neg hac, if_pos hca] at h
          simp at h
        · rw [if_neg hac, if_neg hca] at h
          by_cases hab : a.toNat < b.toNat
          · left; rw [if_pos hab]
          · by_cases hba : b.toNat < a.toNat
            · right
              rw [if_pos (by omega : b.toNat < c.toNat)]
            · rcases charListLt_trans_total as bs cs h with hh | hh
              · left; rw [if_neg hab, if_neg hba, hh]
              · right
                rw [if_neg (by omega : ¬ b.toNat < c.toNat),
                  if_neg (by omega : ¬ c.toNat < b.toNat), hh]

lemma strLe_total (a b : String) : strLe a b = true ∨ strLe b a = true := by
  unfold strLe
  by_cases h : charListLt b.data a.data = true
  · right
    rw [charListLt_asymm _ _ h]
    rfl
  · left
    simp [h]

lemma strLe_trans {a b c : String} (h1 : strLe a b = true) (h2 : strLe b c = true) :
    strLe a c = true := by
  unfold strLe at h1 h2 ⊢
  by_cases h : charListLt c.data a.data = true
  · rcases charListLt_trans_total c.data b.data a.data h with hh | hh
    · rw [hh] at h2; simp at h2
    · rw [hh] at h1; simp at h1
  · simp [h]

/-- Sortedness in the order of Python `sorted` for strings. -/
def StrSorted (l : List String) : Prop := l.Pairwise (fun a b => strLe a b = true)

lemma insertSorted_perm (a : String) : ∀ (l : List String),
    List.Perm (insertSorted a l) (a :: l)
  | [] => List.Perm.refl _
  | b :: t => by
      unfold insertSorted
      split
      · exact List.Perm.refl _
      · exact ((insertSorted_perm a t).cons b).trans (List.Perm.swap a b t)

lemma mem_insertSorted (a x : String) (l : List String) :
    x ∈ insertSorted a l ↔ x = a ∨ x ∈ l := by
  rw [(insertSorted_perm a l).mem_iff]
  simp

lemma insertSorted_sorted (a : String) : ∀ (l : List String),
    StrSorted l → StrSorted (insertSorted a l)
  | [], _ => List.pairwise_singleton _ a
  | b :: t, h => by
      rcases h with - | ⟨hb, ht⟩
      unfold insertSorted
      split
      · rename_i hab
        refine List.Pairwise.cons ?_ (List.Pairwise.cons hb ht)
        intro x hx
        rcases List.mem_cons.mp hx with he | hm
        · exact he ▸ hab
        · exact strLe_trans hab (hb x hm)
      · rename_i hab
        have hba : strLe b a = true := by
          rcases strLe_total a b with h' | h'
          · exact absurd h' hab
          · exact h'
        refine List.Pairwise.cons ?_ (insertSorted_sorted a t ht)
        intro x hx
        rcases (mem_insertSorted a x t).mp hx with he | hm
        · exact he ▸ hba
        · exact hb x hm

lemma sortStrings_perm : ∀ (l : List String), List.Perm (sortStrings l) l
  | [] => List.Perm.refl _
  | a :: t => by
      have : sortStrings (a :: t) = insertSorted a (sortStrings t) := rfl
      rw [this]
      exact (insertSorted_perm a (sortStrings t)).trans ((sortStrings_perm t).cons a)

lemma sortStrings_sorted : ∀ (l : List String), StrSorted (sortStrings l)
  | [] => List.Pairwise.nil
  | a :: t => by
      have : sortStrings (a :: t) = insertSorted a (sortStrings t) := rfl
      rw [this]
      exact insertSorted_sorted a (sortStrings t) (sortStrings_sorted t)

lemma sortedUnique_sorted (l : List String) : StrSorted (sortedUnique l) :=
  sortStrings_sorted l.dedup

lemma sortedUnique_nodup (l : List String) : (sortedUnique l).Nodup :=
  (sortStrings_perm l.dedup).nodup_iff.mpr l.nodup_dedup

lemma mem_sortedUnique (l : List String) (x : String) :
    x ∈ sortedUnique l ↔ x ∈ l := by
  rw [sortedUnique, (sortStrings_perm l.dedup).mem_iff, List.mem_dedup]

/-! ## Helper lemmas: string shapes -/

lemma strExt {a b : String} (h : a.data = b.data) : a = b := congrArg String.mk h

lemma ne_of_head_lit (p r t : String)
    (h : ¬ t.data.take p.data.length = p.data) : ¬ (p ++ r = t) := by
  intro he
  apply h
  rw [← he]
  have hd : (p ++ r).data = p.data ++ r.data := rfl
  rw [hd, List.take_left]

lemma ne_of_tail_lit (p r t : String)
    (h : ¬ t.data.reverse.take r.data.length = r.data.reverse) : ¬ (p ++ r = t) := by
  intro he
  apply h
  rw [← he]
  have hd : (p ++ r).data = p.data ++ r.data := rfl
  rw [hd, List.reverse_append]
  have hlen : r.data.length = r.data.reverse.length := by simp
  rw [hlen, List.take_left]

lemma filterMap_ite {α β : Type} (p : α → Prop) [DecidablePred p] (f : α → β) :
    ∀ (l : List α), l.filterMap (fun a => if p a then some (f a) else none)
      = (l.filter (fun a => decide (p a))).map f
  | [] => rfl
  | a :: t => by
      by_cases h : p a <;> simp [h, filterMap_ite p f t]

lemma joinComma_tail : ∀ (l : List String), l ≠ [] →
    (∀ x ∈ l, ∃ y, x = y ++ ")") → ∃ z, joinComma l = z ++ ")"
  | [], h, _ => absurd rfl h
  | [a], _, hall => by simpa [joinComma] using hall a (by simp)
  | a :: b :: t, _, hall => by
      obtain ⟨z, hz⟩ := joinComma_tail (b :: t) (by simp)
        (fun x hx => hall x (List.mem_cons_of_mem a hx))
      refine ⟨(a ++ ", ") ++ z, ?_⟩
      show a ++ (", " ++ joinComma (b :: t)) = (a ++ ", ") ++ z ++ ")"
      rw [hz]
      simp [String.append_assoc]

/-! ## Claim C7: the null-value check -/

lemma nullColumns_eq_nil_iff (df : DataFrame) :
    nullColumns df = [] ↔ ∀ i, i < df.cols.length → nullCount (df.col i) = 0 := by
  unfold nullColumns
  rw [List.filterMap_eq_nil_iff]
  constructor
  · intro h i hi
    have hm : (i, df.cols.get ⟨i, hi⟩) ∈ df.cols.enum :=
      List.mk_mem_enum_iff_get?.mpr (List.get?_eq_get hi)
    have := h _ hm
    by_cases hc : 0 < nullCount (df.col i)
    · rw [if_pos hc] at this; cases this
    · omega
  · intro h ic hm
    have hget := List.mk_mem_enum_iff_get?.mp hm
    have hlt : ic.1 < df.cols.length := by
      rcases List.get?_eq_some.mp hget with ⟨hl, -⟩
      exact hl
    rw [if_neg]
    rw [h ic.1 hlt]
    omega

lemma nullColumns_tail (df : DataFrame) (x : String) (hx : x ∈ nullColumns df) :
    ∃ y, x = y ++ ")" := by
  unfold nullColumns at hx
  rcases List.mem_filterMap.mp hx with ⟨ic, -, hic⟩
  by_cases hc : 0 < nullCount (df.col ic.1)
  · rw [if_pos hc] at hic
    exact ⟨_, (Option.some.inj hic).symm⟩
  · rw [if_neg hc] at hic
    cases hic

/-- C7: the null check emits exactly one line: the literal "none" line when
no column holds a missing value, and otherwise the line listing
`column (count)` entries, in column order, for exactly the columns whose
null count is positive. -/
theorem C7_null_check (df : DataFrame) :
    (nullLine df = "- Columns containing null values: none" ↔
      ∀ i, i < df.cols.length → nullCount (df.col i) = 0)
    ∧ nullLine df ∈ diagnoseLines df
    ∧ nullColumns df =
        (df.cols.enum.filter (fun ic => decide (0 < nullCount (df.col ic.1)))).map
          (fun ic => ic.2 ++ (" (" ++ toString (nullCount (df.col ic.1))) ++ ")")
    ∧ (nullColumns df ≠ [] →
        nullLine df = "- Columns containing null values: " ++ joinComma (nullColumns df)) := by
  refine ⟨?_, by simp [diagnoseLines], ?_, ?_⟩
  · rw [← nullColumns_eq_nil_iff]
    constructor
    · intro h
      by_cases hnc : nullColumns df = []
      · exact hnc
      · exfalso
        rw [nullLine, if_neg hnc] at h
        obtain ⟨z, hz⟩ := joinComma_tail (nullColumns df) hnc (nullColumns_tail df)
        rw [hz] at h
        have hsplit : "- Columns containing null values: none"
            = "- Columns containing null values: " ++ "none" := by decide
        rw [hsplit] at h
        have hdata : (z ++ ")").data = ("none" : String).data :=
          List.append_cancel_left (congrArg String.data h)
        have hne : ¬ (z ++ ")" = "none") :=
          ne_of_tail_lit z ")" "none" (by decide)
        exact hne (strExt hdata)
    · intro h
      rw [nullLine, if_pos h]
  · unfold nullColumns
    exact filterMap_ite _ _ _
  · intro hnc
    rw [nullLine, if_neg hnc]

/-- C7 witness: a table with no missing values gets the literal "none" line;
a table with a missing value gets the listing line. -/
theorem C7_witness :
    nullLine ⟨["msrp"], [[Value.vint 1]]⟩ = "- Columns containing null values: none"
    ∧ nullLine ⟨["exterior_color"], [[Value.vnull]]⟩
        = "- Columns containing null values: "
          ++ joinComma (nullColumns ⟨["exterior_color"], [[Value.vnull]]⟩) := by
  constructor
  · exact (C7_null_check ⟨["msrp"], [[Value.vint 1]]⟩).1.mpr (by decide)
  · exact (C7_null_check ⟨["exterior_color"], [[Value.vnull]]⟩).2.2.2 (by decide)

/-! ## Section shapes of the report lines -/

lemma mixedTypeLines_shape (df : DataFrame) (s : String) (hs : s ∈ mixedTypeLines df) :
    ∃ r, s = "- Mixed data types in \x27" ++ r := by
  unfold mixedTypeLines at hs
  rcases List.mem_filterMap.mp hs with ⟨ic, -, hic⟩
  by_cases h : 1 < (distinctTypeNames (df.col ic.1)).length
  · rw [if_pos h] at hic
    exact ⟨_, (Option.some.inj hic).symm⟩
  · rw [if_neg h] at hic
    cases hic

lemma stringIssueLines_shape (df : DataFrame) (s : String) (hs : s ∈ stringIssueLines df) :
    ∃ p, s = p ++ " have leading/trailing spaces" := by
  unfold stringIssueLines at hs
  rcases List.mem_filterMap.mp hs with ⟨ic, -, hic⟩
  by_cases h1 : (df.col ic.1).any (fun v => match v with | .vstr _ => true | _ => false)
  · rw [if_pos h1] at hic
    by_cases h2 : whitespaceMismatch (df.col ic.1) ≠ 0
    · rw [if_pos h2] at hic
      exact ⟨_, (Option.some.inj hic).symm⟩
    · rw [if_neg h2] at hic
      cases hic
  · rw [if_neg h1] at hic
    cases hic

lemma categoricalLines_shape (df : DataFrame) (s : String) (hs : s ∈ categoricalLines df) :
    ∃ r, s = "- Unexpected values in \x27" ++ r := by
  unfold categoricalLines at hs
  rcases List.mem_filterMap.mp hs with ⟨ce, -, hce⟩
  by_cases h1 : ce.1 ∈ df.cols
  · rw [if_pos h1] at hce
    by_cases h2 : offendersFor df ce.1 ce.2 = []
    · rw [if_pos h2] at hce
      cases hce
    · rw [if_neg h2] at hce
      exact ⟨_, (Option.some.inj hce).symm⟩
  · rw [if_neg h1] at hce
    cases hce

lemma msrpLines_shape (df : DataFrame) (s : String) (hs : s ∈ msrpLines df) :
    ∃ r, s = "- \x27msrp\x27 contains " ++ r := by
  unfold msrpLines at hs
  by_cases h1 : "msrp" ∈ df.cols
  · rw [if_pos h1] at hs
    by_cases h2 : msrpFailCount df ≠ 0
    · rw [if_pos h2] at hs
      exact ⟨_, (List.mem_singleton.mp hs)⟩
    · rw [if_neg h2] at hs
      cases hs
  · rw [if_neg h1] at hs
    cases hs

/-! ## Claim C8: the categorical vocabulary check -/

/-- C8: for each categorical column of `EXPECTED_VALUES` present in the
table, every non-null string value outside the vocabulary is reported (and a
non-string contributes its type name), as a sorted duplicate-free list, on a
line that reaches the report whenever the offender list is nonempty.  In
particular a `trim_level` value "luxary" is reported. -/
theorem C8_categorical_check (df : DataFrame) (c : String) (expected : List String)
    (hce : (c, expected) ∈ EXPECTED_VALUES) (hc : c ∈ df.cols) :
    (∀ s : String, Value.vstr s ∈ df.col (df.cols.indexOf c) → s ∉ expected →
      s ∈ offendersFor df c expected)
    ∧ (∀ n : Int, Value.vint n ∈ df.col (df.cols.indexOf c) →
      "int" ∈ offendersFor df c expected)
    ∧ StrSorted (offendersFor df c expected)
    ∧ (offendersFor df c expected).Nodup
    ∧ (offendersFor df c expected ≠ [] →
      ("- Unexpected values in \x27" ++
        (c ++ ("\x27: " ++ joinComma (offendersFor df c expected)))) ∈ diagnoseLines df) := by
  refine ⟨?_, ?_, sortedUnique_sorted _, sortedUnique_nodup _, ?_⟩
  · intro s hs hnot
    rw [offendersFor, mem_sortedUnique]
    exact List.mem_filterMap.mpr ⟨Value.vstr s, hs, by simp [hnot]⟩
  · intro n hn
    rw [offendersFor, mem_sortedUnique]
    exact List.mem_filterMap.mpr ⟨Value.vint n, hn, rfl⟩
  · intro hne
    have hmem : ("- Unexpected values in \x27" ++
        (c ++ ("\x27: " ++ joinComma (offendersFor df c expected)))) ∈ categoricalLines df := by
      unfold categoricalLines
      refine List.mem_filterMap.mpr ⟨(c, expected), hce, ?_⟩
      rw [if_pos hc, if_neg hne]
    simp only [diagnoseLines, List.mem_append, List.mem_cons]
    tauto

/-- C8 witness: a concrete table whose `trim_level` column holds "luxary". -/
theorem C8_witness :
    "luxary" ∈ offendersFor ⟨["trim_level"], [[Value.vstr "luxary"]]⟩ "trim_level"
      ["Base", "Sport", "Premium", "Limited"]
    ∧ ("- Unexpected values in \x27" ++
        ("trim_level" ++ ("\x27: " ++ joinComma (offendersFor
          ⟨["trim_level"], [[Value.vstr "luxary"]]⟩ "trim_level"
          ["Base", "Sport", "Premium", "Limited"]))))
        ∈ diagnoseLines ⟨["trim_level"], [[Value.vstr "luxary"]]⟩ := by
  have h := C8_categorical_check ⟨["trim_level"], [[Value.vstr "luxary"]]⟩ "trim_level"
    ["Base", "Sport", "Premium", "Limited"] (by decide) (by decide)
  have hmem := h.1 "luxary" (by decide) (by decide)
  exact ⟨hmem, h.2.2.2.2 (List.ne_nil_of_mem hmem)⟩

/-! ## Claim C3: the msrp coercion check -/

/-- C3 (amended): the diagnoser coerces every msrp value and reports the
failing count only when it is nonzero; a table whose msrp column contains
"N/A" has a nonzero count and the count line reaches the report. -/
theorem C3_msrp_count (df : DataFrame) (hcol : "msrp" ∈ df.cols) :
    (msrpLines df = [] ↔ msrpFailCount df = 0)
    ∧ (msrpFailCount df ≠ 0 →
      ("- \x27msrp\x27 contains " ++ (toString (msrpFailCount df) ++ " non-numeric values"))
        ∈ diagnoseLines df)
    ∧ (Value.vstr "N/A" ∈ df.col (df.cols.indexOf "msrp") → msrpFailCount df ≠ 0) := by
  refine ⟨?_, ?_, ?_⟩
  · unfold msrpLines
    rw [if_pos hcol]
    by_cases h : msrpFailCount df ≠ 0
    · rw [if_pos h]
      simp [h]
    · rw [if_neg h]
      simp
      omega
  · intro h
    have hmem : ("- \x27msrp\x27 contains " ++ (toString (msrpFailCount df)
        ++ " non-numeric values")) ∈ msrpLines df := by
      unfold msrpLines
      rw [if_pos hcol, if_pos h]
      exact List.mem_singleton.mpr rfl
    simp only [diagnoseLines, List.mem_append, List.mem_cons]
    tauto
  · intro hNA
    have hf : Value.vstr "N/A" ∈
        (df.col (df.cols.indexOf "msrp")).filter (fun v => !v.coercesToNumeric) :=
      List.mem_filter.mpr ⟨hNA, by decide⟩
    have := List.length_pos.mpr (List.ne_nil_of_mem hf)
    unfold msrpFailCount
    omega

/-- C3 counterexample to the claim as stated: on a table whose msrp column
coerces completely the count (zero) is not reported at all. -/
theorem C3_counterexample :
    ¬ ("- \x27msrp\x27 contains 0 non-numeric values"
        ∈ diagnoseLines ⟨["msrp"], [[Value.vint 27995]]⟩) := by decide

/-- C3 witness: a table with an "N/A" msrp has a nonzero reported count. -/
theorem C3_witness :
    msrpFailCount ⟨["msrp"], [[Value.vstr "N/A"]]⟩ ≠ 0
    ∧ ("- \x27msrp\x27 contains "
        ++ (toString (msrpFailCount ⟨["msrp"], [[Value.vstr "N/A"]]⟩)
          ++ " non-numeric values"))
      ∈ diagnoseLines ⟨["msrp"], [[Value.vstr "N/A"]]⟩ := by
  have h := C3_msrp_count ⟨["msrp"], [[Value.vstr "N/A"]]⟩ (by decide)
  have h3 := h.2.2 (by decide)
  exact ⟨h3, h.2.1 h3⟩

/-! ## Claim C10: the model-year coercion check -/

lemma modelYearFailCount_iff (df : DataFrame) :
    modelYearFailCount df ≠ 0 ↔
      ∃ v ∈ df.col (df.cols.indexOf "model_year"), v.coercesToNumeric = false := by
  unfold modelYearFailCount
  constructor
  · intro h
    have hne : (df.col (df.cols.indexOf "model_year")).filter
        (fun v => !v.coercesToNumeric) ≠ [] := by
      intro he; rw [he] at h; simp at h
    obtain ⟨v, hv⟩ := List.exists_mem_of_ne_nil _ hne
    obtain ⟨hvc, hvb⟩ := List.mem_filter.mp hv
    exact ⟨v, hvc, by simpa using hvb⟩
  · intro ⟨v, hvc, hvb⟩
    have hf : v ∈ (df.col (df.cols.indexOf "model_year")).filter
        (fun v => !v.coercesToNumeric) :=
      List.mem_filter.mpr ⟨hvc, by simp [hvb]⟩
    have := List.length_pos.mpr (List.ne_nil_of_mem hf)
    omega

lemma modelYearLine_mem_iff (df : DataFrame) :
    "- \x27model_year\x27 includes non-numeric entries" ∈ diagnoseLines df ↔
      ("model_year" ∈ df.cols ∧ modelYearFailCount df ≠ 0) := by
  constructor
  · intro h
    simp only [diagnoseLines, List.mem_append, List.mem_cons] at h
    rcases h with ((((h | h) | h) | h) | h) | h
    · rcases h with h | h | h | h | h | h
      · cases (by decide :
          ¬ ("- \x27model_year\x27 includes non-numeric entries" = "Data diagnosis report")) h
      · exact absurd h.symm (ne_of_head_lit "- Rows: " _ _ (by decide))
      · exact absurd h.symm (ne_of_head_lit "- Columns: " _ _ (by decide))
      · exact absurd h.symm (ne_of_head_lit "- Duplicate rows detected: " _ _ (by decide))
      · exfalso
        by_cases hnc : nullColumns df = []
        · rw [nullLine, if_pos hnc] at h
          exact (by decide : ¬ ("- \x27model_year\x27 includes non-numeric entries"
            = "- Columns containing null values: none")) h
        · rw [nullLine, if_neg hnc] at h
          exact (ne_of_head_lit "- Columns containing null values: " _ _ (by decide)) h.symm
      · simp at h
    · obtain ⟨r, hr⟩ := mixedTypeLines_shape df _ h
      exact absurd hr.symm (ne_of_head_lit "- Mixed data types in \x27" _ _ (by decide))
    · obtain ⟨p, hp⟩ := stringIssueLines_shape df _ h
      exact absurd hp.symm (ne_of_tail_lit _ " have leading/trailing spaces" _ (by decide))
    · obtain ⟨r, hr⟩ := categoricalLines_shape df _ h
      exact absurd hr.symm (ne_of_head_lit "- Unexpected values in \x27" _ _ (by decide))
    · obtain ⟨r, hr⟩ := msrpLines_shape df _ h
      exact absurd hr.symm (ne_of_head_lit "- \x27msrp\x27 contains " _ _ (by decide))
    · unfold modelYearLines at h
      by_cases h1 : "model_year" ∈ df.cols
      · rw [if_pos h1] at h
        by_cases h2 : modelYearFailCount df ≠ 0
        · exact ⟨h1, h2⟩
        · rw [if_neg h2] at h
          cases h
      · rw [if_neg h1] at h
        cases h
  · intro ⟨h1, h2⟩
    have hmem : "- \x27model_year\x27 includes non-numeric entries" ∈ modelYearLines df := by
      unfold modelYearLines
      rw [if_pos h1, if_pos h2]
      exact List.mem_singleton.mpr rfl
    simp only [diagnoseLines, List.mem_append, List.mem_cons]
    tauto

lemma toDataFrame_modelYear_col (l : List Row) :
    (toDataFrame l).col ((toDataFrame l).cols.indexOf "model_year")
      = l.map Row.model_year := by
  have hcols : (toDataFrame l).cols = genCols := rfl
  have hidx : genCols.indexOf "model_year" = 3 := by decide
  rw [hcols, hidx]
  unfold toDataFrame DataFrame.col
  rw [List.map_map]
  exact List.map_congr_left (fun r _ => rfl)

/-- C10: the model-year line is emitted exactly when some value of the
`model_year` column fails numeric coercion; the generator renders a textual
year as its decimal digits, which coerce, so the line never appears in a
diagnosis of a generated table. -/
theorem C10_model_year_line (df : DataFrame) (rows : Nat) (st : Nat → Nat) (l : List Row) :
    ("- \x27model_year\x27 includes non-numeric entries" ∈ diagnoseLines df ↔
      ("model_year" ∈ df.cols
        ∧ ∃ v ∈ df.col (df.cols.indexOf "model_year"), v.coercesToNumeric = false))
    ∧ (generateWith rows st = some l →
      "- \x27model_year\x27 includes non-numeric entries"
        ∉ diagnoseLines (toDataFrame l)) := by
  constructor
  · rw [modelYearLine_mem_iff df, modelYearFailCount_iff df]
  · intro hgen hmem
    obtain ⟨-, -, hyear⟩ := generateWith_spec rows st l hgen
    obtain ⟨h1, h2⟩ := (modelYearLine_mem_iff (toDataFrame l)).mp hmem
    obtain ⟨v, hvc, hvb⟩ := (modelYearFailCount_iff (toDataFrame l)).mp h2
    rw [toDataFrame_modelYear_col] at hvc
    obtain ⟨r, hrl, hrv⟩ := List.mem_map.mp hvc
    rw [← hrv] at hvb
    rw [hyear r hrl] at hvb
    cases hvb

/-- C10 witness: the iff at a concrete table with a failing year, and the
non-emission on a concrete generated table. -/
theorem C10_witness :
    ("- \x27model_year\x27 includes non-numeric entries"
      ∈ diagnoseLines ⟨["model_year"], [[Value.vstr "20x6"]]⟩)
    ∧ ("- \x27model_year\x27 includes non-numeric entries"
      ∉ diagnoseLines (toDataFrame ((generateWith 12 (fun _ => 0)).getD []))) := by
  constructor
  · exact (C10_model_year_line ⟨["model_year"], [[Value.vstr "20x6"]]⟩ 12 (fun _ => 0)
      []).1.mpr ⟨by decide, Value.vstr "20x6", by decide, by decide⟩
  · exact (C10_model_year_line ⟨["model_year"], [[Value.vstr "20x6"]]⟩ 12 (fun _ => 0)
      ((generateWith 12 (fun _ => 0)).getD [])).2 (by decide)

/-! ## Claim C5: source resolution order -/

/-- C5: resolution tries the literal path, then the path under the script
directory, then the path under its parent; the first existing candidate wins
and only when none exists is the source treated as an importable module, so
an existing file shadows any importable module of the same name (the loaded
result does not depend on the import table at all). -/
theorem C5_resolution_order (env : Env) (source : String) (g : String → Option PyModule) :
    (env.fileExists (pathOfString source) = true →
      resolve_candidate_path env source = some (pathOfString source))
    ∧ ((pathOfString source).abs = false →
      env.fileExists (pathOfString source) = false →
      env.fileExists (env.scriptDir.join (pathOfString source)) = true →
      resolve_candidate_path env source = some (env.scriptDir.join (pathOfString source)))
    ∧ ((pathOfString source).abs = false →
      env.fileExists (pathOfString source) = false →
      env.fileExists (env.scriptDir.join (pathOfString source)) = false →
      env.fileExists (env.scriptDir.parent.join (pathOfString source)) = true →
      resolve_candidate_path env source
        = some (env.scriptDir.parent.join (pathOfString source)))
    ∧ ((pathOfString source).abs = false →
      env.fileExists (pathOfString source) = false →
      env.fileExists (env.scriptDir.join (pathOfString source)) = false →
      env.fileExists (env.scriptDir.parent.join (pathOfString source)) = false →
      resolve_candidate_path env source = none)
    ∧ ((resolve_candidate_path env source).isSome = true →
      load_dataframe env source = load_dataframe { env with importable := g } source)
    ∧ (resolve_candidate_path env source = none →
      load_dataframe env source
        = (match env.importable (module_name source) with
          | none => .error (.importError ("No module named " ++ module_name source))
          | some m =>
            if m.hasGenerator then .ok m.generated
            else .error (.attributeError
              "Provided module does not expose generate_raw_car_equipment_data()"))) := by
  refine ⟨?_, ?_, ?_, ?_, ?_, ?_⟩
  · intro h1
    unfold resolve_candidate_path
    by_cases habs : (pathOfString source).abs
    · simp [habs, h1]
    · simp [habs, h1]
  · intro habs h1 h2
    unfold resolve_candidate_path
    simp [habs, h1, h2]
  · intro habs h1 h2 h3
    unfold resolve_candidate_path
    simp [habs, h1, h2, h3]
  · intro habs h1 h2 h3
    unfold resolve_candidate_path
    simp [habs, h1, h2, h3]
  · intro hsome
    rcases hres : resolve_candidate_path env source with - | p
    · rw [hres] at hsome; cases hsome
    · have hres' : resolve_candidate_path { env with importable := g } source = some p := hres
      unfold load_dataframe
      rw [hres, hres']
  · intro hres
    have hres' : resolve_candidate_path env source = none := hres
    unfold load_dataframe
    rw [hres']

/-- The host environment of the C5 witness: a single relative CSV file
exists, and every module name is importable. -/
def envC5 : Env where
  scriptDir := ⟨true, ["repo", "src", "data_diagnosis"]⟩
  fileExists := fun p => decide (p = pathOfString "data.csv")
  csvTable := fun _ => ⟨["msrp"], [[Value.vint 27995]]⟩
  pyModule := fun _ => ⟨true, ⟨genCols, []⟩⟩
  importable := fun _ => some ⟨true, ⟨["other"], []⟩⟩

/-- C5 witness: with both a local file and an importable module available,
the file wins and the import table is irrelevant. -/
theorem C5_witness :
    resolve_candidate_path envC5 "data.csv" = some (pathOfString "data.csv")
    ∧ load_dataframe envC5 "data.csv"
        = load_dataframe { envC5 with importable := fun _ => none } "data.csv" := by
  refine ⟨(C5_resolution_order envC5 "data.csv" (fun _ => none)).1 (by decide), ?_⟩
  exact (C5_resolution_order envC5 "data.csv" (fun _ => none)).2.2.2.2.1 (by decide)

/-! ## Claim C6: load failure modes -/

/-- C6: loading fails exactly when no candidate path exists and the
module import fails, or the resolved file has an extension other than .csv / .py,
or the resolved or imported module lacks the generator entry point; on any
failure the diagnosis is the same error and no report is produced. -/
theorem C6_load_failure_modes (env : Env) (source : String) :
    ((∃ e, load_dataframe env source = .error e) ↔
      ((resolve_candidate_path env source = none
          ∧ env.importable (module_name source) = none)
        ∨ (∃ p, resolve_candidate_path env source = some p
            ∧ lowerAscii (extSuffix p) ≠ ".csv" ∧ lowerAscii (extSuffix p) ≠ ".py")
        ∨ (∃ p, resolve_candidate_path env source = some p
            ∧ lowerAscii (extSuffix p) = ".py" ∧ (env.pyModule p).hasGenerator = false)
        ∨ (resolve_candidate_path env source = none
            ∧ ∃ m, env.importable (module_name source) = some m
              ∧ m.hasGenerator = false)))
    ∧ (∀ e, load_dataframe env source = .error e →
      diagnose_generated_data env source = .error e)
    ∧ (∀ e r, load_dataframe env source = .error e →
      ¬ diagnose_generated_data env source = .ok r) := by
  refine ⟨?_, ?_, ?_⟩
  · unfold load_dataframe
    rcases hres : resolve_candidate_path env source with - | p
    · rcases himp : env.importable (module_name source) with - | m
      · simp [hres, himp]
      · by_cases hg : m.hasGenerator = true
        · simp [hres, himp, hg]
        · simp [hres, himp, hg]
    · by_cases hcsv : lowerAscii (extSuffix p) = ".csv"
      · simp [hres, hcsv]
      · by_cases hpy : lowerAscii (extSuffix p) = ".py"
        · by_cases hg : (env.pyModule p).hasGenerator = true
          · simp [hres, hcsv, hpy, hg]
          · simp [hres, hcsv, hpy, hg]
        · simp [hres, hcsv, hpy]
  · intro e he
    unfold diagnose_generated_data
    rw [he]
    rfl
  · intro e r he
    unfold diagnose_generated_data
    rw [he]
    intro hcontra
    cases hcontra

/-- The host environment of the C6 witness: no file exists and nothing
is importable. -/
def envC6 : Env where
  scriptDir := ⟨true, ["repo", "src", "data_diagnosis"]⟩
  fileExists := fun _ => false
  csvTable := fun _ => ⟨genCols, []⟩
  pyModule := fun _ => ⟨true, ⟨genCols, []⟩⟩
  importable := fun _ => none

/-- C6 witness: an unresolvable source aborts with the import error and
yields no report. -/
theorem C6_witness :
    diagnose_generated_data envC6 "no_such_source"
      = .error (.importError ("No module named " ++ module_name "no_such_source")) :=
  (C6_load_failure_modes envC6 "no_such_source").2.1 _ (by rfl)
